import Mathlib

/-
Shallow embedding of the playback selection and transition engine of
PiSignage Pro (main.py): the `ContentScheduler` playlist logic, the
`VLCPlayerManager` fade and failure handling, and the `notify_clients`
observer fan-out.  Python dicts are modelled as insertion-ordered
association lists (faithful to Python 3.7+ dict semantics), machine
integers as `Nat`, `int(x * i / steps)` on non-negative operands as
truncating natural division, and the spots where Python could raise as
`Option` results.
-/

namespace PiSignage

/-- Content.type in main.py (lines 58-61): image, video or web page. -/
inductive ContentType where
  | image
  | video
  | web
deriving DecidableEq, Repr

/-- The Content model of main.py (lines 63-70).  `created_at` is a
datetime in the source, modelled as a Nat timestamp; `duration` is the
display duration in whole seconds. -/
structure Content where
  id : String
  name : String
  type : ContentType
  path : String
  duration : Nat
  created_at : Nat
  file_hash : Option String
deriving DecidableEq, Repr

/-- The Schedule model of main.py (lines 72-79).  Note the source model
carries no creation timestamp. -/
structure Schedule where
  id : String
  name : String
  content_ids : List String
  start_time : Option String
  end_time : Option String
  enabled : Bool
  priority : Int
deriving DecidableEq, Repr

/-- Python dict membership `k in d` over an insertion-ordered assoc list. -/
def dictMem {α : Type} (d : List (String × α)) (k : String) : Bool :=
  d.any (fun p => p.1 == k)

/-- Python dict lookup `d[k]` as an Option (None models KeyError). -/
def dictGet? {α : Type} (d : List (String × α)) (k : String) : Option α :=
  (d.find? (fun p => p.1 == k)).map (fun p => p.2)

/-- Python dict assignment `d[k] = v`: replace in place when the key is
present, else append (insertion order preserved). -/
def dictSet {α : Type} (d : List (String × α)) (k : String) (v : α) :
    List (String × α) :=
  if dictMem d k then d.map (fun p => if p.1 == k then (k, v) else p)
  else d ++ [(k, v)]

/-- Python `del d[k]`. -/
def dictDel {α : Type} (d : List (String × α)) (k : String) :
    List (String × α) :=
  d.filter (fun p => !(p.1 == k))

/-- Python `list(d.values())` in insertion order. -/
def dictValues {α : Type} (d : List (String × α)) : List α :=
  d.map (fun p => p.2)

/-- The mutable fields of ContentScheduler (main.py lines 176-183):
`current_playlist` (a list of captured Content objects), the rotation
cursor `current_index`, the content map `content_db` and the (never
consulted) `schedules` map. -/
structure SchedulerState where
  current_playlist : List Content
  current_index : Nat
  content_db : List (String × Content)
  schedules : List (String × Schedule)
deriving DecidableEq, Repr

/-- ContentScheduler state right after `__init__` (main.py lines 176-183). -/
def initState : SchedulerState :=
  { current_playlist := [], current_index := 0, content_db := [], schedules := [] }

/-- `add_content` (main.py lines 217-219): `self.content_db[content.id] = content`. -/
def addContent (s : SchedulerState) (c : Content) : SchedulerState :=
  { s with content_db := dictSet s.content_db c.id c }

/-- `remove_content` (main.py lines 221-224): delete the db entry if present. -/
def removeContent (s : SchedulerState) (cid : String) : SchedulerState :=
  if dictMem s.content_db cid then { s with content_db := dictDel s.content_db cid }
  else s

/-- `update_playlist` (main.py lines 226-232): rebuild the playlist from the
ids that resolve in the content map (capturing the Content objects), and
reset the cursor to 0. -/
def updatePlaylist (s : SchedulerState) (content_ids : List String) : SchedulerState :=
  { s with
    current_playlist :=
      content_ids.filterMap (fun cid =>
        if dictMem s.content_db cid then dictGet? s.content_db cid else none),
    current_index := 0 }

/-- The mutable fields of VLCPlayerManager (main.py lines 88-93), with the
audio volume made explicit and an error log accumulating the messages of
`logger.error`. -/
structure PlayerState where
  volume : Nat
  playing : Bool
  current_media : Option String
  is_transitioning : Bool
  log : List String
deriving DecidableEq, Repr

/-- VLCPlayerManager state right after `__init__`. -/
def initPlayer : PlayerState :=
  { volume := 100, playing := false, current_media := none,
    is_transitioning := false, log := [] }

/-- Number of discrete fade steps (main.py lines 130 and 138). -/
def fadeOutSteps : Nat := 20

/-- The successive volumes written by `_fade_out` (main.py lines 128-134):
`for i in range(steps, 0, -1): audio_set_volume(int(current_volume * i / steps))`.
On non-negative ints, `int(cv * i / steps)` is truncating division. -/
def fadeOutVolumes (cv : Nat) : List Nat :=
  (List.range fadeOutSteps).map (fun k => cv * (fadeOutSteps - k) / fadeOutSteps)

/-- The volume the player is left at when `_fade_out` completes. -/
def fadeOutFinalVolume (cv : Nat) : Option Nat :=
  (fadeOutVolumes cv).getLast?

/-- Per-step delay of a fade: `await asyncio.sleep(duration / steps)`. -/
def fadeStepDelay (duration : ℚ) : ℚ := duration / fadeOutSteps

/-- Total time spent fading: steps iterations of the per-step delay. -/
def fadeTotalTime (duration : ℚ) : ℚ := fadeOutSteps * fadeStepDelay duration

/-- Default fade window (main.py lines 128 and 136): `duration=0.5`. -/
def fadeDefaultDuration : ℚ := 1 / 2

/-- Log message of the except clause of `play_content` (main.py line 125). -/
def errMsg (e : String) : String := "Error playing content: " ++ e

/-- `play_content` (main.py lines 95-126).  `fails` says whether the
renderer step of the try body raises (media_new/set_media/play for
image and video, the _show_web_content launch for web); the except clause
wraps the whole try, so it catches every branch, logs the failure and
clears `is_transitioning`.  Faithful points: `is_transitioning` is set at
entry; a playing player is first faded out ending at `volume / 20`; a
successful web launch returns early with `is_transitioning` still true;
a successful media load starts playback and the fade-in ends at full
volume with `is_transitioning` cleared. -/
def playContent (fails : Bool) (c : Content) (p : PlayerState) : PlayerState :=
  let p1 := { p with is_transitioning := true }
  let p2 := if p1.playing then { p1 with volume := p1.volume / fadeOutSteps } else p1
  let pFail := { p2 with is_transitioning := false,
                         log := p2.log ++ [errMsg "load failure"] }
  match c.type with
  | ContentType.web => if fails then pFail else p2
  | _ =>
    if fails then pFail
    else
      { p2 with current_media := some c.path, playing := true, volume := 100,
                is_transitioning := false }

/-- Observable outcome of one `play_next` tick: either the no-content path
(`await asyncio.sleep(5)` then retry, main.py lines 197-200), or playing a
content item and waiting `content.duration` seconds before the next
selection (main.py lines 202-215). -/
inductive PlayOutcome where
  | noContent (backoff : Nat)
  | played (c : Content) (wait : Nat)
deriving DecidableEq, Repr

/-- The default-playlist fallback of `play_next` (main.py lines 193-195):
an empty playlist is replaced by all content map values. -/
def loadDefault (s : SchedulerState) : SchedulerState :=
  if s.current_playlist.isEmpty then
    { s with current_playlist := dictValues s.content_db }
  else s

/-- One tick of `play_next` (main.py lines 191-215) as a pure step: load
the default playlist if empty; if still empty, the outcome is a 5 second
backoff and retry; otherwise read `current_playlist[current_index]`
(`none` models an IndexError), hand the content to `play_content`, advance
the cursor by one modulo the playlist length, and report the content
together with the `content.duration` wait that precedes the next
selection. -/
def playNext (fails : Bool) (s : SchedulerState) (p : PlayerState) :
    Option (PlayOutcome × SchedulerState × PlayerState) :=
  let s1 := loadDefault s
  if s1.current_playlist.isEmpty then
    some (PlayOutcome.noContent 5, s1, p)
  else
    match s1.current_playlist[s1.current_index]? with
    | none => none
    | some c =>
      some (PlayOutcome.played c c.duration,
            { s1 with current_index := (s1.current_index + 1) % s1.current_playlist.length },
            playContent fails c p)

/-- Just the selection outcome of a tick, scheduler/player state dropped. -/
def selOutcome (fails : Bool) (s : SchedulerState) (p : PlayerState) :
    Option PlayOutcome :=
  (playNext fails s p).map (fun r => r.1)

/-- Modelled from the spec: the source evaluates no schedule windows at
all, so the spec notion of an active Schedule is taken from its words for
the windowless case: a Schedule with no start and end rule is active at
every instant while enabled. -/
def specAlwaysActive (sch : Schedule) : Bool :=
  sch.enabled && sch.start_time.isNone && sch.end_time.isNone

/-- websocket send to one observer: `ok c` says whether `send_json`
succeeds for client `c` (clients modelled as numeric handles). -/
def notifyLoop (ok : Nat → Bool) : List Nat → List Nat × List Nat
  | [] => ([], [])
  | c :: cs =>
    let r := notifyLoop ok cs
    if ok c then (c :: r.1, r.2) else (r.1, c :: r.2)

/-- Python `list.remove(x)`: drop the first occurrence of `x`. -/
def removeFirst (l : List Nat) (x : Nat) : List Nat :=
  match l with
  | [] => []
  | y :: ys => if y = x then ys else y :: removeFirst ys x

/-- `notify_clients` (main.py lines 371-381): attempt delivery to every
client in order, collecting the failing ones, then remove each failing
client from the subscriber list.  Returns (new subscriber list, clients
the event was delivered to). -/
def notifyClients (ok : Nat → Bool) (clients : List Nat) :
    List Nat × List Nat :=
  let r := notifyLoop ok clients
  (r.2.foldl removeFirst clients, r.1)

/-! Concrete inputs used by the claim evaluations. -/

/-- A concrete image item of duration 10 seconds. -/
def contentA : Content :=
  { id := "A", name := "Image A", type := ContentType.image,
    path := "/content/images/a.jpg", duration := 10, created_at := 0,
    file_hash := none }

/-- A concrete video item of duration 10 seconds. -/
def contentB : Content :=
  { id := "B", name := "Video B", type := ContentType.video,
    path := "/content/videos/b.mp4", duration := 10, created_at := 1,
    file_hash := none }

/-- An enabled, windowless (hence always active), priority 10 Schedule
governing exactly contentB. -/
def schedS : Schedule :=
  { id := "S", name := "Sched S", content_ids := ["B"], start_time := none,
    end_time := none, enabled := true, priority := 10 }

/-- Scheduler state playing the default rotation [contentA], with both A
and B in the catalog. -/
def stateAB : SchedulerState :=
  updatePlaylist (addContent (addContent initState contentA) contentB) ["A"]

/-- stateAB together with the active Schedule schedS in the schedules map. -/
def exampleState : SchedulerState :=
  { stateAB with schedules := [("S", schedS)] }

/-- Scheduler state whose current item is contentA (playlist [A], cursor 0). -/
def sPlayingA : SchedulerState :=
  updatePlaylist (addContent initState contentA) ["A"]

/-- Scheduler state whose playlist is [contentA, contentB] with cursor 0. -/
def stateABboth : SchedulerState :=
  updatePlaylist (addContent (addContent initState contentA) contentB) ["A", "B"]

/-- stateABboth after one tick: the cursor advanced to 1. -/
def stateABafter : SchedulerState :=
  { current_playlist := [contentA, contentB], current_index := 1,
    content_db := [("A", contentA), ("B", contentB)], schedules := [] }

/-- Player state after successfully playing contentA from initPlayer. -/
def playerAfterA : PlayerState :=
  { volume := 100, playing := true,
    current_media := some "/content/images/a.jpg",
    is_transitioning := false, log := [] }

/-- sPlayingA after one tick: the single-item playlist wraps back to 0. -/
def sPlayingAafter : SchedulerState :=
  { current_playlist := [contentA], current_index := 0,
    content_db := [("A", contentA)], schedules := [] }

/-- Player state after a failing load of contentA from initPlayer. -/
def playerFailA : PlayerState :=
  { volume := 100, playing := false, current_media := none,
    is_transitioning := false, log := [errMsg "load failure"] }

/-- State in which contentA was put in the playlist and then deleted from
the content map: its playlist entry dangles. -/
def sDangling : SchedulerState :=
  removeContent (updatePlaylist (addContent initState contentA) ["A"]) "A"

/-- Content catalog holding only contentA. -/
def dbOnlyA : SchedulerState := addContent initState contentA

/-- The cursor invariant of the scheduler: 0 on an empty playlist, in
bounds on a non-empty one. -/
def SchedInv (s : SchedulerState) : Prop :=
  (s.current_playlist = [] → s.current_index = 0) ∧
  (s.current_playlist ≠ [] → s.current_index < s.current_playlist.length)

/-- One step of the system: any public mutation of the scheduler, or one
tick of the playback loop. -/
inductive Step : SchedulerState → SchedulerState → Prop where
  | add (s : SchedulerState) (c : Content) : Step s (addContent s c)
  | remove (s : SchedulerState) (cid : String) : Step s (removeContent s cid)
  | update (s : SchedulerState) (ids : List String) : Step s (updatePlaylist s ids)
  | tick (s : SchedulerState) (fails : Bool) (p : PlayerState) (out : PlayOutcome)
      (s2 : SchedulerState) (p2 : PlayerState)
      (h : playNext fails s p = some (out, s2, p2)) : Step s s2

/-- States reachable from the freshly initialised scheduler by any
interleaving of mutations and loop ticks. -/
inductive Reachable : SchedulerState → Prop where
  | init : Reachable initState
  | step (s s2 : SchedulerState) (h1 : Reachable s) (h2 : Step s s2) : Reachable s2

/-! Helper lemmas. -/

/-- The selection outcome of a tick never looks at the schedules map. -/
lemma selOutcome_ignores_schedules (fails : Bool) (s : SchedulerState)
    (p : PlayerState) (d1 d2 : List (String × Schedule)) :
    selOutcome fails { s with schedules := d1 } p =
      selOutcome fails { s with schedules := d2 } p := by
  obtain ⟨pl, i, db, sch⟩ := s
  simp only [selOutcome, playNext, loadDefault]
  cases hpl : pl.isEmpty with
  | true =>
    cases hdb : (dictValues db).isEmpty with
    | true => simp [hpl, hdb]
    | false =>
      cases hget : (dictValues db)[i]? <;> simp [hpl, hdb, hget]
  | false =>
    cases hget : pl[i]? <;> simp [hpl, hget]

/-- loadDefault never touches the cursor. -/
lemma loadDefault_index (s : SchedulerState) :
    (loadDefault s).current_index = s.current_index := by
  unfold loadDefault
  split <;> rfl

/-- loadDefault is the identity on a non-empty playlist. -/
lemma loadDefault_of_ne (s : SchedulerState) (h : s.current_playlist ≠ []) :
    loadDefault s = s := by
  unfold loadDefault
  rw [if_neg (by simp [h])]

/-- Inversion of one `play_next` tick: it either backed off on an empty
playlist or played the item at the cursor and advanced the cursor. -/
lemma playNext_inv (fails : Bool) (s : SchedulerState) (p : PlayerState)
    (out : PlayOutcome) (s2 : SchedulerState) (p2 : PlayerState)
    (h : playNext fails s p = some (out, s2, p2)) :
    (out = PlayOutcome.noContent 5 ∧ s2 = loadDefault s ∧ p2 = p ∧
      (loadDefault s).current_playlist = []) ∨
    (∃ c, (loadDefault s).current_playlist[(loadDefault s).current_index]? = some c ∧
      out = PlayOutcome.played c c.duration ∧
      s2 = { loadDefault s with current_index :=
               ((loadDefault s).current_index + 1) %
                 (loadDefault s).current_playlist.length } ∧
      p2 = playContent fails c p) := by
  simp only [playNext] at h
  cases hpl : (loadDefault s).current_playlist.isEmpty with
  | true =>
    simp only [hpl, if_true, Option.some.injEq, Prod.mk.injEq] at h
    obtain ⟨h1, h2, h3⟩ := h
    exact Or.inl ⟨h1.symm, h2.symm, h3.symm, List.isEmpty_iff.mp hpl⟩
  | false =>
    cases hget : (loadDefault s).current_playlist[(loadDefault s).current_index]? with
    | none =>
      rw [hget] at h
      simp [hpl] at h
    | some c =>
      rw [hget] at h
      simp only [hpl, Bool.false_eq_true, if_false, Option.some.injEq,
        Prod.mk.injEq] at h
      obtain ⟨h1, h2, h3⟩ := h
      exact Or.inr ⟨c, rfl, h1.symm, h2.symm, h3.symm⟩

/-- On a failing load of any item (web included), `play_content` swallows
the exception: it ends non-transitioning and appends the error log entry. -/
lemma playContent_fail_spec (c : Content) (p : PlayerState) :
    (playContent true c p).is_transitioning = false ∧
    (playContent true c p).log = p.log ++ [errMsg "load failure"] := by
  cases hct : c.type <;> cases hp : p.playing <;> simp [playContent, hct, hp]

/-- With a non-empty playlist the selection outcome is precisely the item
at the cursor. -/
lemma selOutcome_of_ne (fails : Bool) (s : SchedulerState) (p : PlayerState)
    (h : s.current_playlist ≠ []) :
    selOutcome fails s p =
      (s.current_playlist[s.current_index]?).map
        (fun c => PlayOutcome.played c c.duration) := by
  simp only [selOutcome, playNext, loadDefault_of_ne s h]
  rw [if_neg (by simp [h])]
  cases hget : s.current_playlist[s.current_index]? <;> simp [hget]

/-- A tick from a cursor at 0 never fails: the indexed read is in bounds. -/
lemma playNext_isSome_of_zero (fails : Bool) (s : SchedulerState)
    (p : PlayerState) (h0 : s.current_index = 0) :
    (playNext fails s p).isSome = true := by
  simp only [playNext]
  cases hpl : (loadDefault s).current_playlist.isEmpty with
  | true => simp [hpl]
  | false =>
    have hne : (loadDefault s).current_playlist ≠ [] := by simpa using hpl
    have h0i : (loadDefault s).current_index = 0 := by
      rw [loadDefault_index, h0]
    obtain ⟨a, t, hat⟩ : ∃ a t, (loadDefault s).current_playlist = a :: t := by
      cases hcc : (loadDefault s).current_playlist with
      | nil => exact absurd hcc hne
      | cons a t => exact ⟨a, t, rfl⟩
    simp [hat, h0i]

/-- Python dict lookup on a cons cell. -/
lemma dictGet?_cons {α : Type} (a : String × α) (t : List (String × α))
    (k : String) :
    dictGet? (a :: t) k = if a.1 = k then some a.2 else dictGet? t k := by
  by_cases h : a.1 = k
  · simp [dictGet?, List.find?_cons_of_pos, h]
  · simp [dictGet?, List.find?_cons_of_neg, h]

/-- Python `del` on a cons cell. -/
lemma dictDel_cons {α : Type} (a : String × α) (t : List (String × α))
    (cid : String) :
    dictDel (a :: t) cid =
      if a.1 = cid then dictDel t cid else a :: dictDel t cid := by
  by_cases h : a.1 = cid <;> simp [dictDel, List.filter_cons, h]

/-- Deleting a key leaves every other lookup unchanged. -/
lemma dictGet?_dictDel_ne {α : Type} (d : List (String × α)) (cid k : String)
    (hk : k ≠ cid) :
    dictGet? (dictDel d cid) k = dictGet? d k := by
  induction d with
  | nil => rfl
  | cons a t ih =>
    rw [dictDel_cons]
    by_cases h1 : a.1 = cid
    · rw [if_pos h1, ih, dictGet?_cons,
        if_neg (fun hh => hk (hh.symm.trans h1))]
    · rw [if_neg h1, dictGet?_cons, dictGet?_cons, ih]

/-- After deletion the key is gone from the dict. -/
lemma dictMem_dictDel_self {α : Type} (d : List (String × α)) (cid : String) :
    dictMem (dictDel d cid) cid = false := by
  simp only [dictMem, dictDel]
  rw [List.any_eq_false]
  intro x hx
  have h2 := (List.mem_filter.mp hx).2
  simp at h2 ⊢
  exact h2

/-! Claim theorems. -/

/-- C1: the claim says selection is governed by the highest-priority
active Schedule (ties to the most recently created) and falls back to the
default rotation only when no Schedule is active.  The code never
consults `self.schedules`: the selection outcome is invariant under
replacing the schedules map by anything at all, and in a concrete catalog
holding an enabled, windowless (always active) Schedule S of priority 10
whose content list is exactly ["B"], `play_next` still selects the
default-rotation item A, which S does not govern. -/
theorem c1_schedules_dormant :
    (∀ (fails : Bool) (s : SchedulerState) (p : PlayerState)
       (d1 d2 : List (String × Schedule)),
       selOutcome fails { s with schedules := d1 } p =
         selOutcome fails { s with schedules := d2 } p) ∧
    specAlwaysActive schedS = true ∧
    dictGet? exampleState.schedules "S" = some schedS ∧
    selOutcome false exampleState initPlayer =
      some (PlayOutcome.played contentA 10) ∧
    schedS.content_ids.contains contentA.id = false :=
  ⟨fun fails s p d1 d2 => selOutcome_ignores_schedules fails s p d1 d2,
   by decide, by decide, by decide, by decide⟩

/-- C2: the claim says deleting the currently playing Content preempts
the Playback Driver within one second.  In the code the tick that plays
contentA waits the full `contentA.duration = 10` seconds before the next
selection, `remove_content` changes neither the playlist nor the cursor
(it only deletes the content map entry and signals nothing), and even the
selection after the removal still yields contentA: no preemption exists. -/
theorem c2_no_preemption :
    selOutcome false sPlayingA initPlayer =
      some (PlayOutcome.played contentA 10) ∧
    contentA.duration = 10 ∧
    ¬ contentA.duration < 1 ∧
    (removeContent sPlayingA "A").current_playlist = sPlayingA.current_playlist ∧
    (removeContent sPlayingA "A").current_index = sPlayingA.current_index ∧
    selOutcome false (removeContent sPlayingA "A") initPlayer =
      some (PlayOutcome.played contentA 10) := by decide

/-- C5: with an empty content map and an empty playlist, a `play_next`
tick returns the no-content outcome with the 5 second backoff, leaves the
scheduler and player state exactly unchanged (so every retry behaves the
same way, an indefinite backoff loop), and in particular does not fail. -/
theorem c5_empty_backoff :
    ∀ (fails : Bool) (s : SchedulerState) (p : PlayerState),
      s.content_db = [] → s.current_playlist = [] →
      playNext fails s p = some (PlayOutcome.noContent 5, s, p) := by
  intro fails s p hdb hpl
  obtain ⟨pl, i, db, sch⟩ := s
  dsimp only at hdb hpl
  subst hdb
  subst hpl
  rfl

/-- C5 witness: the freshly initialised scheduler has no content; the
tick backs off 5 seconds and changes nothing. -/
theorem c5_empty_backoff_witness :
    playNext false initState initPlayer =
      some (PlayOutcome.noContent 5, initState, initPlayer) :=
  c5_empty_backoff false initState initPlayer rfl rfl

/-- C6 counterexample: the claim says completing the fade-out sets the
level to exactly zero.  Starting from volume 100, the final volume
written by `_fade_out` is `int(100 * 1 / 20) = 5`, not 0. -/
theorem c6_counterexample :
    fadeOutFinalVolume 100 ≠ some 0 ∧ fadeOutFinalVolume 100 = some 5 := by
  decide

/-- C6 amended: the fade-out runs 20 discrete steps over a configurable
window whose default is 0.5 seconds (each step sleeps duration/steps, so
the steps span exactly the window), but its final level is the starting
level divided by 20 (truncated), which is exactly zero only when the
starting level is below 20. -/
theorem c6_amended (cv : Nat) :
    (fadeOutVolumes cv).length = fadeOutSteps ∧
    fadeOutFinalVolume cv = some (cv / fadeOutSteps) ∧
    (fadeOutFinalVolume cv = some 0 ↔ cv < fadeOutSteps) ∧
    (∀ d : ℚ, fadeTotalTime d = d) ∧
    fadeDefaultDuration = 1 / 2 := by
  have hfin : fadeOutFinalVolume cv = some (cv / fadeOutSteps) := by
    rw [fadeOutFinalVolume, fadeOutVolumes, fadeOutSteps,
        show (20 : Nat) = 19 + 1 from rfl, List.range_succ, List.map_append]
    simp [List.getLast?_append_cons]
  refine ⟨by simp [fadeOutVolumes], hfin, ?_, ?_, rfl⟩
  · rw [hfin, Option.some_inj]
    exact Nat.div_eq_zero_iff (by decide)
  · intro d
    rw [fadeTotalTime, fadeStepDelay, mul_comm]
    exact div_mul_cancel₀ d (by norm_num [fadeOutSteps])

/-- C6 amended witness: at starting volume 100 the fade-out takes 20
steps and ends at level 5. -/
theorem c6_amended_witness :
    (fadeOutVolumes 100).length = fadeOutSteps ∧
    fadeOutFinalVolume 100 = some (100 / fadeOutSteps) :=
  ⟨(c6_amended 100).1, (c6_amended 100).2.1⟩

/-- C4: `update_playlist` always resets the cursor to 0 (so in particular
whenever it installs a different authoritative sequence), and a tick on an
unchanged non-empty playlist advances the cursor by exactly one modulo the
playlist length while leaving the playlist itself untouched. -/
theorem c4_cursor :
    (∀ (s : SchedulerState) (ids : List String),
       (updatePlaylist s ids).current_index = 0) ∧
    (∀ (fails : Bool) (s : SchedulerState) (p : PlayerState)
       (out : PlayOutcome) (s2 : SchedulerState) (p2 : PlayerState),
       s.current_playlist ≠ [] →
       playNext fails s p = some (out, s2, p2) →
       s2.current_playlist = s.current_playlist ∧
       s2.current_index = (s.current_index + 1) % s.current_playlist.length) := by
  refine ⟨fun s ids => rfl, ?_⟩
  intro fails s p out s2 p2 hne h
  rcases playNext_inv fails s p out s2 p2 h with
    ⟨_, _, _, hempty⟩ | ⟨c, hget, hout, hs2, hp2⟩
  · rw [loadDefault_of_ne s hne] at hempty
    exact absurd hempty hne
  · rw [loadDefault_of_ne s hne] at hs2
    subst hs2
    exact ⟨rfl, rfl⟩

/-- C4 witness: a tick on the playlist [contentA, contentB] leaves the
playlist unchanged and moves the cursor from 0 to 1. -/
theorem c4_cursor_witness :
    stateABafter.current_playlist = stateABboth.current_playlist ∧
    stateABafter.current_index =
      (stateABboth.current_index + 1) % stateABboth.current_playlist.length :=
  c4_cursor.2 false stateABboth initPlayer (PlayOutcome.played contentA 10)
    stateABafter playerAfterA (by decide) (by decide)

/-- C7 counterexample: the claim says the Driver advances immediately to
the next selection after a load failure.  In the code, the tick whose
load of contentA fails still reports the full `contentA.duration = 10`
second wait before the next selection (the `wait` component of the
outcome), even though the failure was logged: nothing is immediate. -/
theorem c7_counterexample :
    selOutcome true sPlayingA initPlayer =
      some (PlayOutcome.played contentA 10) ∧
    (playContent true contentA initPlayer).log = [errMsg "load failure"] ∧
    contentA.duration = 10 ∧
    ¬ contentA.duration = 0 := by decide

/-- C7 amended: on a failing load of any content item the failure is
logged and no exception propagates (the tick still returns a result), the
player ends in the non-transitioning state, and the Driver advances the
cursor past the failed item (no indefinite retry) — but only after the
configured duration of the failed item, not immediately. -/
theorem c7_amended :
    ∀ (s : SchedulerState) (p : PlayerState) (c : Content) (w : Nat)
      (s2 : SchedulerState) (p2 : PlayerState),
      playNext true s p = some (PlayOutcome.played c w, s2, p2) →
      p2.is_transitioning = false ∧
      p2.log = p.log ++ [errMsg "load failure"] ∧
      w = c.duration ∧
      s2.current_index =
        ((loadDefault s).current_index + 1) %
          (loadDefault s).current_playlist.length := by
  intro s p c w s2 p2 h
  rcases playNext_inv true s p _ s2 p2 h with
    ⟨h1, _, _, _⟩ | ⟨c0, hget, hout, hs2, hp2⟩
  · exact PlayOutcome.noConfusion h1
  · injection hout with hc hw
    subst hc
    subst hs2
    subst hp2
    exact ⟨(playContent_fail_spec c p).1,
           (playContent_fail_spec c p).2, hw, rfl⟩

/-- C7 amended witness: the failing tick on playlist [contentA] logs the
failure, clears the transition flag, waits the full 10 seconds and moves
the cursor on (wrapping 0 → 0 on the one-item playlist). -/
theorem c7_amended_witness :
    playerFailA.is_transitioning = false ∧
    playerFailA.log = initPlayer.log ++ [errMsg "load failure"] ∧
    (10 : Nat) = contentA.duration ∧
    sPlayingAafter.current_index =
      ((loadDefault sPlayingA).current_index + 1) %
        (loadDefault sPlayingA).current_playlist.length :=
  c7_amended sPlayingA initPlayer contentA 10 sPlayingAafter playerFailA
    (by decide)

/-- C3 counterexample: the claim says selection never returns an id no
longer present in the Content map.  After contentA is deleted, its id no
longer resolves, yet the playlist still holds the captured object and the
next selection returns exactly that dangling item. -/
theorem c3_counterexample :
    dictMem sDangling.content_db contentA.id = false ∧
    sDangling.current_playlist = [contentA] ∧
    selOutcome false sDangling initPlayer =
      some (PlayOutcome.played contentA 10) := by decide

/-- C3 amended: dangling ids are skipped at playlist-formation time:
`update_playlist` keeps exactly the ids that resolve in the content map
(capturing the mapped Content objects), an all-dangling id list yields the
empty playlist, and selection after an update never fails; but a Content
deleted after the sequence was formed is still returned, because the
playlist stores the objects themselves (see the counterexample). -/
theorem c3_amended :
    ∀ (s : SchedulerState) (ids : List String) (fails : Bool) (p : PlayerState),
      (∀ c ∈ (updatePlaylist s ids).current_playlist,
         ∃ cid, cid ∈ ids ∧ dictGet? s.content_db cid = some c) ∧
      ((∀ cid ∈ ids, dictMem s.content_db cid = false) →
         (updatePlaylist s ids).current_playlist = []) ∧
      (playNext fails (updatePlaylist s ids) p).isSome = true := by
  intro s ids fails p
  refine ⟨?_, ?_, ?_⟩
  · intro c hc
    simp only [updatePlaylist] at hc
    rw [List.mem_filterMap] at hc
    obtain ⟨cid, hcid, hf⟩ := hc
    by_cases hm : dictMem s.content_db cid
    · rw [if_pos hm] at hf
      exact ⟨cid, hcid, hf⟩
    · rw [if_neg hm] at hf
      exact absurd hf (by simp)
  · intro hall
    simp only [updatePlaylist]
    rw [List.filterMap_eq_nil_iff]
    intro cid hcid
    rw [if_neg (by simp [hall cid hcid])]
  · exact playNext_isSome_of_zero fails _ p rfl

/-- C3 amended witness: updating the playlist to two dangling ids yields
the empty playlist and the following tick still returns a result. -/
theorem c3_amended_witness :
    (updatePlaylist dbOnlyA ["Z", "Q"]).current_playlist = [] ∧
    (playNext false (updatePlaylist dbOnlyA ["Z", "Q"]) initPlayer).isSome = true :=
  ⟨(c3_amended dbOnlyA ["Z", "Q"] false initPlayer).2.1 (by decide),
   (c3_amended dbOnlyA ["Z", "Q"] false initPlayer).2.2⟩

/-- C10: `remove_content` touches only the content map entry of the given
id: playlist, cursor and schedules are unchanged, an unknown id is a
no-op, every other key still resolves as before, the deleted id is gone,
and the selection outcome on a non-empty playlist is identical before and
after the removal — the captured Content object keeps playing. -/
theorem c10_frame :
    ∀ (s : SchedulerState) (cid : String),
      (removeContent s cid).current_playlist = s.current_playlist ∧
      (removeContent s cid).current_index = s.current_index ∧
      (removeContent s cid).schedules = s.schedules ∧
      (dictMem s.content_db cid = false → removeContent s cid = s) ∧
      (∀ k, k ≠ cid →
        dictGet? (removeContent s cid).content_db k = dictGet? s.content_db k) ∧
      dictMem (removeContent s cid).content_db cid = false ∧
      (∀ (fails : Bool) (p : PlayerState), s.current_playlist ≠ [] →
        selOutcome fails (removeContent s cid) p = selOutcome fails s p) := by
  intro s cid
  by_cases hm : dictMem s.content_db cid
  · have hr : removeContent s cid = { s with content_db := dictDel s.content_db cid } := by
      simp [removeContent, hm]
    rw [hr]
    refine ⟨rfl, rfl, rfl, ?_, ?_, ?_, ?_⟩
    · intro hfalse
      rw [hfalse] at hm
      exact absurd hm (by simp)
    · intro k hk
      exact dictGet?_dictDel_ne s.content_db cid k hk
    · exact dictMem_dictDel_self s.content_db cid
    · intro fails p hne
      rw [selOutcome_of_ne fails { s with content_db := dictDel s.content_db cid } p hne,
          selOutcome_of_ne fails s p hne]
  · have hr : removeContent s cid = s := by simp [removeContent, hm]
    rw [hr]
    exact ⟨rfl, rfl, rfl, fun _ => rfl, fun k _ => rfl,
           by simpa using hm, fun fails p hne => rfl⟩

/-- C10 witness: removing contentA from the catalog while the playlist
[contentA, contentB] is current changes neither the playlist nor the next
selection. -/
theorem c10_frame_witness :
    (removeContent stateABboth "A").current_playlist = stateABboth.current_playlist ∧
    selOutcome false (removeContent stateABboth "A") initPlayer =
      selOutcome false stateABboth initPlayer :=
  ⟨(c10_frame stateABboth "A").1,
   (c10_frame stateABboth "A").2.2.2.2.2.2 false initPlayer (by decide)⟩

/-- The delivered list of the fan-out loop is exactly the clients whose
send succeeds, in order. -/
lemma notifyLoop_fst (ok : Nat → Bool) (l : List Nat) :
    (notifyLoop ok l).1 = l.filter ok := by
  induction l with
  | nil => rfl
  | cons c cs ih =>
    simp only [notifyLoop, List.filter_cons]
    cases hc : ok c <;> simp [hc, ih]

/-- The disconnected list of the fan-out loop is exactly the clients whose
send fails, in order. -/
lemma notifyLoop_snd (ok : Nat → Bool) (l : List Nat) :
    (notifyLoop ok l).2 = l.filter (fun x => !(ok x)) := by
  induction l with
  | nil => rfl
  | cons c cs ih =>
    simp only [notifyLoop, List.filter_cons]
    cases hc : ok c <;> simp [hc, ih]

/-- Removing first occurrences of failing clients never touches a leading
succeeding client. -/
lemma foldl_removeFirst_all_bad (ok : Nat → Bool) (c : Nat) (hc : ok c = true) :
    ∀ (d : List Nat) (l : List Nat), (∀ x ∈ d, ok x = false) →
      d.foldl removeFirst (c :: l) = c :: d.foldl removeFirst l := by
  intro d
  induction d with
  | nil => intro l _; rfl
  | cons x xs ih =>
    intro l hall
    have hx : ok x = false := hall x (by simp)
    have hcx : c ≠ x := fun h => by rw [h, hx] at hc; exact Bool.noConfusion hc
    simp only [List.foldl_cons]
    rw [show removeFirst (c :: l) x = c :: removeFirst l x from by
          simp [removeFirst, hcx]]
    exact ih (removeFirst l x) (fun y hy => hall y (by simp [hy]))

/-- Removing, one by one, the first occurrence of every failing client
from the list leaves exactly the succeeding clients, in order. -/
lemma foldl_removeFirst_filter (ok : Nat → Bool) :
    ∀ l : List Nat,
      (l.filter (fun x => !(ok x))).foldl removeFirst l = l.filter ok := by
  intro l
  induction l with
  | nil => rfl
  | cons c cs ih =>
    cases hc : ok c with
    | true =>
      have h1 : (c :: cs).filter (fun x => !(ok x)) = cs.filter (fun x => !(ok x)) := by
        simp [List.filter_cons, hc]
      have h2 : (c :: cs).filter ok = c :: cs.filter ok := by
        simp [List.filter_cons, hc]
      rw [h1, h2, foldl_removeFirst_all_bad ok c hc _ cs
            (fun x hx => by simpa using (List.mem_filter.mp hx).2), ih]
    | false =>
      have h1 : (c :: cs).filter (fun x => !(ok x)) = c :: cs.filter (fun x => !(ok x)) := by
        simp [List.filter_cons, hc]
      have h2 : (c :: cs).filter ok = cs.filter ok := by
        simp [List.filter_cons, hc]
      rw [h1, h2, List.foldl_cons,
          show removeFirst (c :: cs) c = cs from by simp [removeFirst], ih]

/-- C8: `notify_clients` attempts delivery to every subscribed observer
(each one lands in the delivered or in the pruned set), the event is
delivered to exactly the observers whose send succeeds — a failing
observer neither prevents nor corrupts delivery to the others — and the
new subscriber list is the old one with exactly the failing observers
removed. -/
theorem c8_fanout :
    ∀ (ok : Nat → Bool) (clients : List Nat),
      (notifyClients ok clients).2 = clients.filter ok ∧
      (notifyClients ok clients).1 = clients.filter ok ∧
      ∀ c ∈ clients,
        c ∈ (notifyLoop ok clients).1 ∨ c ∈ (notifyLoop ok clients).2 := by
  intro ok clients
  refine ⟨notifyLoop_fst ok clients, ?_, ?_⟩
  · show ((notifyLoop ok clients).2).foldl removeFirst clients = clients.filter ok
    rw [notifyLoop_snd]
    exact foldl_removeFirst_filter ok clients
  · intro c hc
    rw [notifyLoop_fst, notifyLoop_snd]
    cases hok : ok c with
    | true => exact Or.inl (List.mem_filter.mpr ⟨hc, hok⟩)
    | false => exact Or.inr (List.mem_filter.mpr ⟨hc, by simp [hok]⟩)

/-- C8 witness: with clients [1, 2, 3, 4] where odd handles fail to
receive, the event is delivered to [2, 4] and the subscriber list is
pruned to [2, 4]. -/
theorem c8_fanout_witness :
    (notifyClients (fun c => c % 2 == 0) [1, 2, 3, 4]).2 = [2, 4] ∧
    (notifyClients (fun c => c % 2 == 0) [1, 2, 3, 4]).1 = [2, 4] :=
  ⟨((c8_fanout (fun c => c % 2 == 0) [1, 2, 3, 4]).1).trans (by decide),
   ((c8_fanout (fun c => c % 2 == 0) [1, 2, 3, 4]).2.1).trans (by decide)⟩

lemma schedInv_init : SchedInv initState :=
  ⟨fun _ => rfl, fun h => absurd rfl h⟩

lemma schedInv_addContent (s : SchedulerState) (c : Content)
    (hI : SchedInv s) : SchedInv (addContent s c) := hI

lemma schedInv_removeContent (s : SchedulerState) (cid : String)
    (hI : SchedInv s) : SchedInv (removeContent s cid) := by
  by_cases hm : dictMem s.content_db cid
  · have hr : removeContent s cid = { s with content_db := dictDel s.content_db cid } := by
      simp [removeContent, hm]
    rw [hr]
    exact hI
  · have hr : removeContent s cid = s := by simp [removeContent, hm]
    rw [hr]
    exact hI

lemma schedInv_updatePlaylist (s : SchedulerState) (ids : List String) :
    SchedInv (updatePlaylist s ids) := by
  constructor
  · intro _
    rfl
  · intro h
    exact List.length_pos.mpr h

lemma schedInv_loadDefault (s : SchedulerState) (hI : SchedInv s) :
    SchedInv (loadDefault s) := by
  by_cases hpl : s.current_playlist = []
  · have hr : loadDefault s = { s with current_playlist := dictValues s.content_db } := by
      simp [loadDefault, hpl]
    rw [hr]
    constructor
    · intro _
      exact hI.1 hpl
    · intro h
      show s.current_index < (dictValues s.content_db).length
      rw [hI.1 hpl]
      exact List.length_pos.mpr h
  · rw [loadDefault_of_ne s hpl]
    exact hI

lemma schedInv_tick (s : SchedulerState) (fails : Bool) (p : PlayerState)
    (out : PlayOutcome) (s2 : SchedulerState) (p2 : PlayerState)
    (hI : SchedInv s) (h : playNext fails s p = some (out, s2, p2)) :
    SchedInv s2 := by
  rcases playNext_inv fails s p out s2 p2 h with
    ⟨_, hs2, _, _⟩ | ⟨c, hget, _, hs2, _⟩
  · subst hs2
    exact schedInv_loadDefault s hI
  · subst hs2
    have hlen : 0 < (loadDefault s).current_playlist.length := by
      rcases List.getElem?_eq_some.mp hget with ⟨hlt, _⟩
      exact Nat.lt_of_le_of_lt (Nat.zero_le _) hlt
    constructor
    · intro hplnil
      exact absurd hplnil (List.length_pos.mp hlen)
    · intro _
      exact Nat.mod_lt _ hlen

lemma reachable_schedInv : ∀ s : SchedulerState, Reachable s → SchedInv s := by
  intro s h
  induction h with
  | init => exact schedInv_init
  | step s1 s2 h1 h2 ih =>
    cases h2 with
    | add c => exact schedInv_addContent s1 c ih
    | remove cid => exact schedInv_removeContent s1 cid ih
    | update ids => exact schedInv_updatePlaylist s1 ids
    | tick fails p out s2x p2 hx => exact schedInv_tick s1 fails p out s2 p2 ih hx

/-- C9: in every state reachable by interleaving add_content,
remove_content and update_playlist with loop ticks, the read point of the
loop is safe: whenever the (default-loaded) playlist is non-empty the
cursor is strictly below its length, so the indexed read is in bounds and
a tick always returns a result (never an IndexError). -/
theorem c9_inbounds :
    ∀ s : SchedulerState, Reachable s →
      ((loadDefault s).current_playlist ≠ [] →
        (loadDefault s).current_index < (loadDefault s).current_playlist.length) ∧
      (∀ (fails : Bool) (p : PlayerState), (playNext fails s p).isSome = true) := by
  intro s hr
  have hI := reachable_schedInv s hr
  have hL := schedInv_loadDefault s hI
  refine ⟨hL.2, ?_⟩
  intro fails p
  simp only [playNext]
  cases hpl : (loadDefault s).current_playlist.isEmpty with
  | true => simp [hpl]
  | false =>
    have hne : (loadDefault s).current_playlist ≠ [] := by simpa using hpl
    have hlt := hL.2 hne
    simp [hpl, List.getElem?_eq_getElem hlt]

/-- C9 witness: after add_content(contentA) and update_playlist(["A"]) the
tick succeeds on the reachable state. -/
theorem c9_inbounds_witness :
    (playNext false (updatePlaylist (addContent initState contentA) ["A"])
      initPlayer).isSome = true :=
  (c9_inbounds (updatePlaylist (addContent initState contentA) ["A"])
    (Reachable.step (addContent initState contentA)
      (updatePlaylist (addContent initState contentA) ["A"])
      (Reachable.step initState (addContent initState contentA)
        Reachable.init (Step.add initState contentA))
      (Step.update (addContent initState contentA) ["A"]))).2 false initPlayer

end PiSignage
